import Mathlib

/-!
Verification of the LibSagerNetCore flow-dispatch engine against its
specification.  The Go sources are shallowly embedded: pure fragments become
Lean functions, the dispatcher state (NAT table, single-flight lock table,
connection registry, per-app stats) becomes an explicit state record, and
system effects (socket syscalls, WriteTo results, XZ decompression, the
router) become oracle parameters whose values drive the same control flow as
the source.
-/

set_option autoImplicit false

namespace LibSagerNet

/-! ## Per-app statistics (struct appStats, and the stats blocks of
NewConnection lines 287-300 and NewPacket lines 462-475 of tun.go) -/

/-- The `appStats` record: live and total connection counters, byte counters
and the `deactivateAt` unix stamp.  Live counters are `int32` in the source
and are modelled as `Int`; byte/total counters only ever grow. -/
structure AppStatsV where
  tcpConn : Int
  udpConn : Int
  tcpConnTotal : Nat
  udpConnTotal : Nat
  uplink : Nat
  downlink : Nat
  deactivateAt : Int
deriving DecidableEq

/-- `&appStats{}`: the zero value installed by the single-flight creator
before the first increment runs. -/
def freshAppStats : AppStatsV := ⟨0, 0, 0, 0, 0, 0, 0⟩

/-- NewConnection lines 293-295: `AddInt32(&stats.tcpConn, 1)`,
`AddUint32(&stats.tcpConnTotal, 1)`, `StoreInt64(&stats.deactivateAt, 0)`. -/
def tcpFlowStart (s : AppStatsV) : AppStatsV :=
  { s with tcpConn := s.tcpConn + 1, tcpConnTotal := s.tcpConnTotal + 1, deactivateAt := 0 }

/-- NewConnection lines 296-300 (the deferred decrement): decrement
`tcpConn`; if the new `tcpConn` plus `udpConn` is zero, store the current
unix time into `deactivateAt`. -/
def tcpFlowEnd (now : Int) (s : AppStatsV) : AppStatsV :=
  { s with tcpConn := s.tcpConn - 1,
           deactivateAt := if s.tcpConn - 1 + s.udpConn = 0 then now else s.deactivateAt }

/-- NewPacket lines 468-470: the UDP counterpart of `tcpFlowStart`. -/
def udpFlowStart (s : AppStatsV) : AppStatsV :=
  { s with udpConn := s.udpConn + 1, udpConnTotal := s.udpConnTotal + 1, deactivateAt := 0 }

/-- NewPacket lines 471-475 (the deferred decrement): the UDP counterpart of
`tcpFlowEnd`. -/
def udpFlowEnd (now : Int) (s : AppStatsV) : AppStatsV :=
  { s with udpConn := s.udpConn - 1,
           deactivateAt := if s.udpConn - 1 + s.tcpConn = 0 then now else s.deactivateAt }

/-- The spec invariant on an `appStats`:
`live_tcp + live_udp == 0 ⟺ deactivate_at ≠ 0`. -/
def statsInv (s : AppStatsV) : Prop :=
  s.tcpConn + s.udpConn = 0 ↔ s.deactivateAt ≠ 0

instance (s : AppStatsV) : Decidable (statsInv s) := by
  unfold statsInv; infer_instance

/-! ## UID attribution (NewConnection lines 226-251, NewPacket
lines 385-419 of tun.go) -/

/-- NewConnection lines 229-251: on `DumpUid` success the returned value is
cast to `uint16`; `self` compares that truncated value with `os.Getuid()`;
values below 10000 are then collapsed to 1000 and the result is stored into
`inbound.Uid`.  On `DumpUid` failure nothing is recorded (`none`).  The
debug logging of lines 235-244 has no state effect and is omitted. -/
def newConnectionUid (dumpRes : Except String Nat) (procUid : Nat) : Option Nat × Bool :=
  match dumpRes with
  | Except.error _ => (none, false)
  | Except.ok u =>
    let uid := u % 65536
    let self := decide (0 < uid) && decide (uid = procUid)
    let uid2 := if uid < 10000 then 1000 else uid
    (some uid2, self)

/-- NewPacket lines 388-419: identical uid handling on the UDP path (the
source repeats the same block; only the logging differs). -/
def newPacketUid (dumpRes : Except String Nat) (procUid : Nat) : Option Nat × Bool :=
  match dumpRes with
  | Except.error _ => (none, false)
  | Except.ok u =>
    let uid := u % 65536
    let self := decide (0 < uid) && decide (uid = procUid)
    let uid2 := if uid < 10000 then 1000 else uid
    (some uid2, self)

/-! ## Dispatcher state (struct Tun2ray of tun.go)

`udpTable`, `lockTable` and `appStats` are `sync.Map`s, modelled as
association lists where a store prepends and a lookup takes the first
match; `connections` is the `container/list` registry of live conns;
`closed` records every `Close` issued so far and `writes` every `WriteTo`
(conn id, payload bytes, destination ip and port). -/

structure TunState where
  udpTable : List (String × Nat)
  lockTable : List String
  connections : List Nat
  closed : List Nat
  writes : List (Nat × List Nat × String × Nat)
  appStats : List (Nat × AppStatsV)
deriving DecidableEq

/-- First-match association-list lookup, the model of `sync.Map.Load`. -/
def lookupTable (t : List (String × Nat)) (k : String) : Option Nat :=
  match t with
  | [] => none
  | (k2, v) :: rest => if k2 = k then some v else lookupTable rest k

/-- Lookup in the per-uid stats map (`t.appStats.Load(uid)`). -/
def lookupStats (m : List (Nat × AppStatsV)) (uid : Nat) : Option AppStatsV :=
  match m with
  | [] => none
  | (u, s) :: rest => if u = uid then some s else lookupStats rest uid

/-- The get-or-create-then-mutate performed by the stats blocks: load the
uid's `appStats` (installing `&appStats{}` via the single-flight path when
absent, NewConnection lines 272-292) and apply the atomic mutation `f` to
it.  The store prepends, shadowing any older entry. -/
def statsApply (m : List (Nat × AppStatsV)) (uid : Nat) (f : AppStatsV → AppStatsV) :
    List (Nat × AppStatsV) :=
  match lookupStats m uid with
  | some s => (uid, f s) :: m
  | none => (uid, f freshAppStats) :: m

def statsUpdate (st : TunState) (uid : Nat) (f : AppStatsV → AppStatsV) : TunState :=
  { st with appStats := statsApply st.appStats uid f }

/-! ## The sendTo fast path (NewPacket lines 338-352 and NewPingPacket
lines 519-534 of tun.go) -/

/-- The `sendTo` closure of NewPacket: look the NAT key up in `udpTable`;
absent ⇒ `false` with no effect; present ⇒ `WriteTo(data, UDPAddr{dstIp,
dstPort})`, closing the conn when the write errs (the oracle `we` says
which conns err), and `true` either way. -/
def sendToUdp (we : Nat → Bool) (natKey : String) (data : List Nat)
    (destAddr : String) (destPort : Nat) (st : TunState) : Bool × TunState :=
  match lookupTable st.udpTable natKey with
  | none => (false, st)
  | some conn =>
    let st1 := { st with writes := st.writes ++ [(conn, data, destAddr, destPort)] }
    if we conn then (true, { st1 with closed := st1.closed ++ [conn] })
    else (true, st1)

/-- The `sendTo` closure of NewPingPacket (lines 519-534): identical control
flow on the ping message; the extra log line on a write error has no state
effect. -/
def sendToPing (we : Nat → Bool) (natKey : String) (message : List Nat)
    (destAddr : String) (destPort : Nat) (st : TunState) : Bool × TunState :=
  match lookupTable st.udpTable natKey with
  | none => (false, st)
  | some conn =>
    let st1 := { st with writes := st.writes ++ [(conn, message, destAddr, destPort)] }
    if we conn then (true, { st1 with closed := st1.closed ++ [conn] })
    else (true, st1)

/-! ## NewPingPacket (tun.go lines 516-619) -/

/-- NewPingPacket as a state transition.  Oracles: `we` tells which conns
fail `WriteTo`; `routeResult` is `router.PickRoute` (the picked outbound
tag, or an error); `getHandler` is `outboundManager.GetHandler`;
`defaultPing` is the `defaultOutboundForPing` captured at init (set only
when the default outbound is a WireGuard client, NewTun2ray lines 157-161);
`freshConn` is the conn id produced by `handleUDP`.  The reverse-path pump
spawned at line 596 runs after the function returns and is not part of this
synchronous transition; the `cond.Broadcast()` calls have no modelled state.
`natKey` is `fmt.Sprint(source.Address, "-", destination.Address)`. -/
def newPingPacket (we : Nat → Bool) (routeResult : Except String String)
    (getHandler : String → Option Nat) (defaultPing : Option Nat) (freshConn : Nat)
    (source destination : String) (destPort : Nat) (message : List Nat)
    (st : TunState) : Bool × TunState :=
  let natKey := source ++ "-" ++ destination
  match sendToPing we natKey message destination destPort st with
  | (true, st1) => (true, st1)
  | (false, st1) =>
    if natKey ∈ st1.lockTable then
      let r := sendToPing we natKey message destination destPort st1
      (true, r.2)
    else
      let st2 := { st1 with lockTable := st1.lockTable ++ [natKey] }
      let handler : Option Nat :=
        match routeResult with
        | Except.ok tag => getHandler tag
        | Except.error _ => defaultPing
      match handler with
      | none => (false, { st2 with lockTable := st2.lockTable.erase natKey })
      | some _h =>
        let conn := freshConn
        let st3 := { st2 with connections := st2.connections ++ [conn] }
        let st4 := { st3 with udpTable := (natKey, conn) :: st3.udpTable }
        let r := sendToPing we natKey message destination destPort st4
        (true, { r.2 with lockTable := r.2.lockTable.erase natKey })

/-! ## NewConnection (tun.go lines 213-328) -/

/-- The state-transition skeleton of NewConnection from the stats block on:
optionally wrap in stats (start increment now, end decrement deferred to
every return), `PushBack` the conn into the registry (lines 304-306), then
`DispatchLink` (line 310).  On a dispatch error the function returns at
line 313 having neither closed the conn nor removed it from the registry;
otherwise the copy task runs, after which both branches (lines 316-323)
close the conn and line 326 removes the registry element.  `uid`, `self`
and `isDns` come from the earlier part of the function (`newConnectionUid`
and the router comparison). -/
def newConnection (ts self isDns : Bool) (uid : Nat) (now : Int) (conn : Nat)
    (dispatchErr : Bool) (st : TunState) : TunState :=
  let useStats := ts && !self && !isDns
  let st1 := if useStats then statsUpdate st uid tcpFlowStart else st
  let st2 := { st1 with connections := st1.connections ++ [conn] }
  let deferStats := fun (s : TunState) => if useStats then statsUpdate s uid (tcpFlowEnd now) else s
  if dispatchErr then deferStats st2
  else
    let st3 := { st2 with closed := st2.closed ++ [conn] }
    let st4 := { st3 with connections := st3.connections.erase conn }
    deferStats st4

/-- Tun2ray.Close (lines 200-211): closes the device then every element of
the connection registry (the list itself is not cleared). -/
def tunClose (st : TunState) : TunState :=
  { st with closed := st.closed ++ st.connections }

/-! ## protectedDialer.dial (dialer.go lines 120-206) -/

inductive NetKind where
  | tcp
  | udp
  | unixSock
  | unknown
deriving DecidableEq

/-- Oracle outcomes for the system calls performed by one `dial` attempt:
the `unix.Socket` result, the `Protect` hook verdict, the `unix.Connect`
error if any, whether `os.NewFile` returns non-nil, and the result of
wrapping the file as a conn (`net.FileConn` / `net.FilePacketConn` plus
`ResolveUDPAddr`, collapsed into one `Except`). -/
structure DialEnv where
  socketRes : Except String Nat
  protectRes : Bool
  connectRes : Option String
  fileOk : Bool
  wrapRes : Except String Nat

/-- getFd (lines 188-206): a socket syscall for tcp/udp/unix, the
`"unknow network"` error otherwise. -/
def getFd (socketRes : Except String Nat) (network : NetKind) : Except String Nat :=
  match network with
  | NetKind.tcp => socketRes
  | NetKind.udp => socketRes
  | NetKind.unixSock => socketRes
  | NetKind.unknown => Except.error "unknow network"

/-- dial (lines 120-186) over the set of fds the process holds open:
`getFd` yields `fd` (now open); a false `Protect` returns with the fd still
open; a `unix.Connect` error returns that error with the fd still open
(lines 153-156 contain no close); on the success path
`comm.CloseIgnore(file)` at line 184 closes the original fd (the returned
conn holds a dup). -/
def dial (env : DialEnv) (network : NetKind) (openFds : List Nat) :
    Except String Nat × List Nat :=
  match getFd env.socketRes network with
  | Except.error e => (Except.error e, openFds)
  | Except.ok fd =>
    let fds1 := openFds ++ [fd]
    if !env.protectRes then (Except.error "protect failed", fds1)
    else
      match env.connectRes with
      | some e => (Except.error e, fds1)
      | none =>
        if !env.fileOk then (Except.error "failed to connect to fd", fds1)
        else
          match env.wrapRes with
          | Except.error e => (Except.error e, fds1)
          | Except.ok conn => (Except.ok conn, fds1.erase fd)

/-! ## XZ decompression utilities (assets.go lines 17-43)

The filesystem is an association list from path to byte content (a store
prepends, a lookup takes the first match).  The `xz` oracle describes what
`xz.NewReader` + `io.Copy` do on the archive's bytes: fail at the header,
fail mid-stream after writing a first chunk of output, or produce the full
output. -/

def FS : Type := List (String × List Nat)

def fsLookup (fs : FS) (p : String) : Option (List Nat) :=
  match fs with
  | [] => none
  | (q, c) :: rest => if q = p then some c else fsLookup rest p

/-- `os.Create` / a completed write: the path now holds `c`. -/
def fsSet (fs : FS) (p : String) (c : List Nat) : FS := (p, c) :: fs

def fsDelete (fs : FS) (p : String) : FS :=
  match fs with
  | [] => []
  | (q, c) :: rest => if q = p then fsDelete rest p else (q, c) :: fsDelete rest p

/-- `os.Rename(src, dst)`: fails when `src` is absent, else moves the
content. -/
def osRename (fs : FS) (src dst : String) : Except String Unit × FS :=
  match fsLookup fs src with
  | none => (Except.error "rename failed", fs)
  | some c => (Except.ok (), fsSet (fsDelete fs src) dst c)

inductive XzRead where
  | headerErr (e : String)
  | midErr (written : List Nat) (e : String)
  | ok (out : List Nat)
deriving DecidableEq

/-- Unxz (lines 17-35): open the archive (error if absent), build the xz
reader (a header error returns before `os.Create`), create/truncate the
output at `path`, then `io.Copy`; a mid-stream error leaves the bytes
written so far at `path` and returns the error. -/
def Unxz (fs : FS) (xz : List Nat → XzRead) (archive path : String) :
    Except String Unit × FS :=
  match fsLookup fs archive with
  | none => (Except.error "open failed", fs)
  | some content =>
    match xz content with
    | XzRead.headerErr e => (Except.error e, fs)
    | XzRead.midErr written e => (Except.error e, fsSet fs path written)
    | XzRead.ok out => (Except.ok (), fsSet fs path out)

/-- unxz (lines 37-43): `Unxz(path, path+".tmp")`, and only on success
`os.Rename(path+".tmp", path)`. -/
def unxz (fs : FS) (xz : List Nat → XzRead) (path : String) :
    Except String Unit × FS :=
  let r := Unxz fs xz path (path ++ ".tmp")
  match r.1 with
  | Except.error e => (Except.error e, r.2)
  | Except.ok _ => osRename r.2 (path ++ ".tmp") path

/-! ## The local-DNS lookup hook (tun.go lines 166-187) -/

/-- Go `strings.Split(l, sep)` for a one-character separator: splits around
every occurrence; on empty input it yields one empty field, never an empty
list. -/
def splitGo (sep : Char) (l : List Char) : List (List Char) :=
  match l with
  | [] => [[]]
  | c :: rest =>
    if c = sep then [] :: splitGo sep rest
    else
      match splitGo sep rest with
      | [] => [[c]]
      | h :: t => (c :: h) :: t

def digitsToNat (l : List Char) : Nat :=
  l.foldl (fun acc c => acc * 10 + (c.toNat - 48)) 0

/-- Go `strconv.Atoi` as used at line 171 with its error ignored: a
malformed number yields 0. -/
def goAtoi (l : List Char) : Int :=
  match l with
  | [] => 0
  | '-' :: ds => if !ds.isEmpty && ds.all Char.isDigit then -(digitsToNat ds : Int) else 0
  | '+' :: ds => if !ds.isEmpty && ds.all Char.isDigit then (digitsToNat ds : Int) else 0
  | ds => if ds.all Char.isDigit then (digitsToNat ds : Int) else 0

/-- The errors the hook can surface: `dns.RCodeError(r)`, the verbatim
resolver error, and `dns.ErrEmptyResponse`. -/
inductive DnsErr where
  | rcode (n : Int)
  | emptyResponse
  | other (msg : List Char)
deriving DecidableEq

/-- The closure installed by `localdns.SetLookupFunc` (lines 166-186):
`resolverResult` is what `config.LocalResolver.LookupIP` returned (error
string or response string, both as char lists); `parse` is `net.ParseIP`
(`none` is Go's nil IP).  An error with the `"rcode"` prefix becomes
`DnsErr.rcode` of the number after the first space; otherwise the error is
passed through.  A response is split on commas, each field parsed, and the
resulting slice returned unless its length is zero. -/
def localLookupFunc (parse : List Char → Option (List Nat))
    (resolverResult : Except (List Char) (List Char)) :
    Except DnsErr (List (Option (List Nat))) :=
  match resolverResult with
  | Except.error errStr =>
    if List.isPrefixOf "rcode".data errStr then
      Except.error (DnsErr.rcode (goAtoi (((splitGo ' ' errStr).get? 1).getD [])))
    else Except.error (DnsErr.other errStr)
  | Except.ok response =>
    let addrs := splitGo ',' response
    let ips := addrs.map parse
    if ips.length == 0 then Except.error DnsErr.emptyResponse
    else Except.ok ips

/-! ## Theorems -/

/-- C1 counterexample: a freshly created `appStats{}` (installed by the
single-flight creator before its first increment) has
`live_tcp + live_udp = 0` and `deactivate_at = 0`, so the claimed
equivalence `live_tcp + live_udp == 0 ⟺ deactivate_at ≠ 0` fails there. -/
theorem freshAppStats_violates_invariant : ¬ statsInv freshAppStats := by
  simp [statsInv, freshAppStats]

/-- C1 (amended): the invariant `live_tcp + live_udp == 0 ⟺
deactivate_at ≠ 0` is established by every flow start (which increments the
live counter and stores `deactivate_at = 0`) and preserved by every flow
end that follows a start (given nonnegative counters, at least one live
connection, and a positive unix clock, the decrement stamps `deactivate_at`
with the current time exactly when the total drops to zero) — but it does
not hold for a freshly created `appStats` before its first increment. -/
theorem appStats_invariant_transitions :
    (∀ s : AppStatsV, 0 ≤ s.tcpConn → 0 ≤ s.udpConn →
        statsInv (tcpFlowStart s) ∧ statsInv (udpFlowStart s)) ∧
    (∀ (s : AppStatsV) (now : Int), statsInv s → 0 < now → 0 < s.tcpConn → 0 ≤ s.udpConn →
        statsInv (tcpFlowEnd now s)) ∧
    (∀ (s : AppStatsV) (now : Int), statsInv s → 0 < now → 0 < s.udpConn → 0 ≤ s.tcpConn →
        statsInv (udpFlowEnd now s)) ∧
    ¬ statsInv freshAppStats := by
  refine ⟨?_, ?_, ?_, ?_⟩
  · intro s h1 h2
    constructor <;> simp only [statsInv, tcpFlowStart, udpFlowStart] <;> omega
  · intro s now hinv hnow htcp hudp
    simp only [statsInv, tcpFlowEnd] at *
    split <;> omega
  · intro s now hinv hnow hudp htcp
    simp only [statsInv, udpFlowEnd] at *
    split <;> omega
  · simp [statsInv, freshAppStats]

/-- C1 witness: the transition facts evaluated on concrete states. -/
theorem appStats_invariant_transitions_witness :
    statsInv (tcpFlowStart freshAppStats) ∧ statsInv (udpFlowStart freshAppStats) ∧
    statsInv (tcpFlowEnd 5 (tcpFlowStart freshAppStats)) ∧
    statsInv (udpFlowEnd 5 (udpFlowStart freshAppStats)) ∧
    ¬ statsInv freshAppStats := by
  have hstart := appStats_invariant_transitions.1 freshAppStats (by decide) (by decide)
  refine ⟨hstart.1, hstart.2, ?_, ?_, appStats_invariant_transitions.2.2.2⟩
  · exact appStats_invariant_transitions.2.1 (tcpFlowStart freshAppStats) 5 hstart.1
      (by decide) (by decide) (by decide)
  · exact appStats_invariant_transitions.2.2.1 (udpFlowStart freshAppStats) 5 hstart.2
      (by decide) (by decide) (by decide)

/-- C5 counterexample: the dumped uid 75578 (= 65536 + 10042) is at least
10000, yet neither NewConnection nor NewPacket records it unchanged — the
`uint16` cast truncates it to 10042 first. -/
theorem uid_collapse_counterexample :
    10000 ≤ 75578 ∧
    (newConnectionUid (Except.ok 75578) 0).1 ≠ some 75578 ∧
    (newPacketUid (Except.ok 75578) 0).1 ≠ some 75578 := by decide

/-- C5 (amended): for dumped uids below 65536 (where the `uint16` cast is
the identity), a uid below 10000 is recorded as 1000 and a uid of at least
10000 is recorded unchanged, in both NewConnection and NewPacket; larger
dumped values are first truncated modulo 65536.  In particular 42 maps to
1000 and 10042 maps to 10042. -/
theorem uid_collapse_amended (u procUid : Nat) (hu : u < 65536) :
    ((u < 10000 → (newConnectionUid (Except.ok u) procUid).1 = some 1000 ∧
        (newPacketUid (Except.ok u) procUid).1 = some 1000) ∧
     (10000 ≤ u → (newConnectionUid (Except.ok u) procUid).1 = some u ∧
        (newPacketUid (Except.ok u) procUid).1 = some u)) ∧
    (newConnectionUid (Except.ok 42) procUid).1 = some 1000 ∧
    (newConnectionUid (Except.ok 10042) procUid).1 = some 10042 ∧
    (newPacketUid (Except.ok 42) procUid).1 = some 1000 ∧
    (newPacketUid (Except.ok 10042) procUid).1 = some 10042 := by
  have hm : u % 65536 = u := Nat.mod_eq_of_lt hu
  refine ⟨⟨?_, ?_⟩, rfl, rfl, rfl, rfl⟩
  · intro h
    simp [newConnectionUid, newPacketUid, hm, h]
  · intro h
    simp [newConnectionUid, newPacketUid, hm, Nat.not_lt.mpr h]

/-- C5 witness: the amended statement evaluated at 10042 and 42. -/
theorem uid_collapse_amended_witness :
    (newConnectionUid (Except.ok 10042) 0).1 = some 10042 ∧
    (newPacketUid (Except.ok 10042) 0).1 = some 10042 ∧
    (newConnectionUid (Except.ok 42) 0).1 = some 1000 := by
  have h := uid_collapse_amended 10042 0 (by decide)
  have h2 := uid_collapse_amended 42 0 (by decide)
  exact ⟨(h.1.2 (by decide)).1, (h.1.2 (by decide)).2, (h2.1.1 (by decide)).1⟩

/-- C9: both uid blocks truncate the dumped value to 16 bits before
normalisation, so the recorded `inbound.Uid` is `u mod 65536` when that
remainder is at least 10000 and 1000 otherwise; a dumped 65536 + 10042 is
recorded as 10042; and the self check compares the truncated value (when
positive) against the process uid. -/
theorem uid_truncation (u procUid : Nat) :
    (10000 ≤ u % 65536 →
        (newConnectionUid (Except.ok u) procUid).1 = some (u % 65536) ∧
        (newPacketUid (Except.ok u) procUid).1 = some (u % 65536)) ∧
    (u % 65536 < 10000 →
        (newConnectionUid (Except.ok u) procUid).1 = some 1000 ∧
        (newPacketUid (Except.ok u) procUid).1 = some 1000) ∧
    ((newConnectionUid (Except.ok u) procUid).2 = true ↔
        0 < u % 65536 ∧ u % 65536 = procUid) ∧
    (newConnectionUid (Except.ok (65536 + 10042)) procUid).1 = some 10042 := by
  refine ⟨?_, ?_, ?_, rfl⟩
  · intro h
    simp [newConnectionUid, newPacketUid, Nat.not_lt.mpr h]
  · intro h
    simp [newConnectionUid, newPacketUid, h]
  · simp [newConnectionUid]

/-- C9 witness: truncation evaluated at 75578 and 70000. -/
theorem uid_truncation_witness :
    (newConnectionUid (Except.ok 75578) 1000).1 = some 10042 ∧
    (newConnectionUid (Except.ok 75578) 10042).2 = true ∧
    (newConnectionUid (Except.ok 70000) 0).1 = some 1000 := by
  have h1 := uid_truncation 75578 1000
  have h2 := uid_truncation 75578 10042
  have h3 := uid_truncation 70000 0
  exact ⟨(h1.1 (by decide)).1, h2.2.2.1.mpr ⟨by decide, by decide⟩,
    (h3.2.1 (by decide)).1⟩

/-- C2: evidence of the divergence — when `unix.Connect` returns an error,
`dial` propagates that error while the socket fd stays open: lines 153-156
of the source contain no close, contrary to the spec's "On failure, close
the fd and propagate". -/
theorem dial_connect_error_keeps_fd_open (env : DialEnv) (network : NetKind)
    (fd : Nat) (e : String) (fds : List Nat)
    (hfd : getFd env.socketRes network = Except.ok fd)
    (hp : env.protectRes = true)
    (hc : env.connectRes = some e) :
    dial env network fds = (Except.error e, fds ++ [fd]) ∧
    fd ∈ (dial env network fds).2 := by
  have hd : dial env network fds = (Except.error e, fds ++ [fd]) := by
    simp [dial, hfd, hp, hc]
  refine ⟨hd, ?_⟩
  rw [hd]
  simp

/-- C2 witness: a refused TCP connect on fd 7 leaves 7 open. -/
theorem dial_connect_error_keeps_fd_open_witness :
    dial ⟨Except.ok 7, true, some "connection refused", true, Except.ok 0⟩
      NetKind.tcp [] = (Except.error "connection refused", [7]) ∧
    7 ∈ (dial ⟨Except.ok 7, true, some "connection refused", true, Except.ok 0⟩
      NetKind.tcp []).2 :=
  dial_connect_error_keeps_fd_open
    ⟨Except.ok 7, true, some "connection refused", true, Except.ok 0⟩
    NetKind.tcp 7 "connection refused" [] rfl rfl rfl

/-- C3: the fast-path send of NewPacket and NewPingPacket returns false and
writes nothing when the NAT key is absent; when present it performs the
`WriteTo` of the payload to the destination address and returns true, and a
`WriteTo` error additionally closes the connection while still returning
true. -/
theorem sendTo_fastpath_spec (we : Nat → Bool) (natKey : String) (data : List Nat)
    (destAddr : String) (destPort : Nat) (st : TunState) :
    (lookupTable st.udpTable natKey = none →
        sendToUdp we natKey data destAddr destPort st = (false, st) ∧
        sendToPing we natKey data destAddr destPort st = (false, st)) ∧
    (∀ c, lookupTable st.udpTable natKey = some c →
        (sendToUdp we natKey data destAddr destPort st).1 = true ∧
        (sendToUdp we natKey data destAddr destPort st).2.writes =
          st.writes ++ [(c, data, destAddr, destPort)] ∧
        (we c = true →
          (sendToUdp we natKey data destAddr destPort st).2.closed = st.closed ++ [c]) ∧
        (we c = false →
          (sendToUdp we natKey data destAddr destPort st).2.closed = st.closed) ∧
        (sendToPing we natKey data destAddr destPort st).1 = true ∧
        (sendToPing we natKey data destAddr destPort st).2.writes =
          st.writes ++ [(c, data, destAddr, destPort)]) := by
  constructor
  · intro h
    simp [sendToUdp, sendToPing, h]
  · intro c h
    cases hw : we c <;> simp [sendToUdp, sendToPing, h, hw]

/-- C3 witness: the fast path evaluated on an empty NAT table and on a
table holding conn 5 under the key, with a failing `WriteTo`. -/
theorem sendTo_fastpath_spec_witness :
    sendToUdp (fun _ => true) "k" [1] "8.8.8.8" 53
      (⟨[], [], [], [], [], []⟩ : TunState) =
      (false, (⟨[], [], [], [], [], []⟩ : TunState)) ∧
    (sendToUdp (fun _ => true) "k" [1] "8.8.8.8" 53
      (⟨[("k", 5)], [], [], [], [], []⟩ : TunState)).1 = true ∧
    (sendToUdp (fun _ => true) "k" [1] "8.8.8.8" 53
      (⟨[("k", 5)], [], [], [], [], []⟩ : TunState)).2.closed = [5] := by
  have h1 := (sendTo_fastpath_spec (fun _ => true) "k" [1] "8.8.8.8" 53
      (⟨[], [], [], [], [], []⟩ : TunState)).1 (by decide)
  have h2 := (sendTo_fastpath_spec (fun _ => true) "k" [1] "8.8.8.8" 53
      (⟨[("k", 5)], [], [], [], [], []⟩ : TunState)).2 5 (by decide)
  exact ⟨h1.1, h2.1, h2.2.2.1 rfl⟩

/-- C8: when DispatchLink fails, NewConnection has already pushed the conn
into the connection registry, and the error path neither closes it nor
removes it; only `tunClose` (dispatcher Close) later closes it. -/
theorem newConnection_dispatch_error_keeps_registered
    (ts self isDns : Bool) (uid : Nat) (now : Int) (conn : Nat) (st : TunState) :
    (newConnection ts self isDns uid now conn true st).connections =
      st.connections ++ [conn] ∧
    (newConnection ts self isDns uid now conn true st).closed = st.closed ∧
    conn ∈ (tunClose (newConnection ts self isDns uid now conn true st)).closed := by
  cases ts <;> cases self <;> cases isDns <;>
    simp [newConnection, statsUpdate, tunClose]

/-- Deleting a single-flight key that the creator itself just appended
restores the original lock table. -/
theorem erase_appended_key (l : List String) (a : String) (h : a ∉ l) :
    (l ++ [a]).erase a = l := by
  rw [List.erase_append_right _ h, List.erase_cons_head, List.append_nil]

/-- C4: a NewPingPacket call that becomes the single-flight creator and
obtains no route — the router errs while no WireGuard default-ping outbound
was captured, or the picked tag resolves to no handler — returns false,
registers no connection, installs nothing in the NAT table, and the
deferred cleanup still deletes the single-flight entry, leaving the state
exactly as it was. -/
theorem newPingPacket_no_route (we : Nat → Bool) (routeResult : Except String String)
    (getHandler : String → Option Nat) (defaultPing : Option Nat) (freshConn : Nat)
    (source destination : String) (destPort : Nat) (message : List Nat) (st : TunState)
    (hfast : lookupTable st.udpTable (source ++ "-" ++ destination) = none)
    (hlock : (source ++ "-" ++ destination) ∉ st.lockTable)
    (hroute : ((∃ e, routeResult = Except.error e) ∧ defaultPing = none) ∨
        (∃ tag, routeResult = Except.ok tag ∧ getHandler tag = none)) :
    newPingPacket we routeResult getHandler defaultPing freshConn
      source destination destPort message st = (false, st) := by
  have hsend : sendToPing we (source ++ "-" ++ destination) message destination destPort st
      = (false, st) := by simp [sendToPing, hfast]
  unfold newPingPacket
  simp only [hsend, if_neg hlock]
  rcases hroute with ⟨⟨e, hre⟩, hdp⟩ | ⟨tag, hrt, hh⟩
  · simp only [hre, hdp, erase_appended_key st.lockTable _ hlock]
  · simp only [hrt, hh, erase_appended_key st.lockTable _ hlock]

/-- C4 witness: the creator path with a routing error and no WireGuard
default, on the empty dispatcher state. -/
theorem newPingPacket_no_route_witness :
    newPingPacket (fun _ => false) (Except.error "no route") (fun _ => none) none 0
      "10.0.0.1" "8.8.8.8" 0 [] (⟨[], [], [], [], [], []⟩ : TunState) =
      (false, (⟨[], [], [], [], [], []⟩ : TunState)) :=
  newPingPacket_no_route (fun _ => false) (Except.error "no route") (fun _ => none)
    none 0 "10.0.0.1" "8.8.8.8" 0 [] (⟨[], [], [], [], [], []⟩ : TunState)
    (by decide) (by decide) (Or.inl ⟨⟨"no route", rfl⟩, rfl⟩)

/-- A path never equals itself with the ".tmp" suffix appended. -/
theorem tmp_path_ne (path : String) : ¬ path ++ ".tmp" = path := by
  intro h
  have hl := congrArg String.length h
  rw [String.length_append] at hl
  rw [show (".tmp" : String).length = 4 from rfl] at hl
  omega

/-- C6: unxz decompresses into `path ++ ".tmp"` and renames over `path`
only after full success.  A mid-stream decompression failure returns the
error, leaves the file at the destination path unchanged, and leaves the
partial bytes only in the temporary file (no rename happened); full success
installs the decompressed bytes at `path`. -/
theorem unxz_atomic (fs : FS) (xz : List Nat → XzRead) (path : String)
    (content written out : List Nat) (e : String)
    (harch : fsLookup fs path = some content) :
    (xz content = XzRead.midErr written e →
        (unxz fs xz path).1 = Except.error e ∧
        fsLookup (unxz fs xz path).2 path = some content ∧
        fsLookup (unxz fs xz path).2 (path ++ ".tmp") = some written) ∧
    (xz content = XzRead.ok out →
        (unxz fs xz path).1 = Except.ok () ∧
        fsLookup (unxz fs xz path).2 path = some out) := by
  constructor
  · intro hxz
    have hu : unxz fs xz path = (Except.error e, fsSet fs (path ++ ".tmp") written) := by
      simp [unxz, Unxz, harch, hxz]
    rw [hu]
    refine ⟨rfl, ?_, ?_⟩
    · simp [fsSet, fsLookup, tmp_path_ne path, harch]
    · simp [fsSet, fsLookup]
  · intro hxz
    have hu : unxz fs xz path =
        (Except.ok (),
          fsSet (fsDelete (fsSet fs (path ++ ".tmp") out) (path ++ ".tmp")) path out) := by
      simp [unxz, Unxz, harch, hxz, osRename, fsLookup, fsSet]
    rw [hu]
    exact ⟨rfl, by simp [fsSet, fsLookup]⟩

/-- C6 witness: a mid-stream failure and a full success on a one-file
filesystem. -/
theorem unxz_atomic_witness :
    (unxz [("geoip.dat", [7])] (fun _ => XzRead.midErr [1] "unexpected EOF")
      "geoip.dat").1 = Except.error "unexpected EOF" ∧
    fsLookup (unxz [("geoip.dat", [7])] (fun _ => XzRead.midErr [1] "unexpected EOF")
      "geoip.dat").2 "geoip.dat" = some [7] ∧
    (unxz [("geoip.dat", [7])] (fun _ => XzRead.ok [9]) "geoip.dat").1 = Except.ok () ∧
    fsLookup (unxz [("geoip.dat", [7])] (fun _ => XzRead.ok [9])
      "geoip.dat").2 "geoip.dat" = some [9] := by
  have h1 := unxz_atomic [("geoip.dat", [7])] (fun _ => XzRead.midErr [1] "unexpected EOF")
      "geoip.dat" [7] [1] [9] "unexpected EOF" (by decide)
  have h2 := unxz_atomic [("geoip.dat", [7])] (fun _ => XzRead.ok [9])
      "geoip.dat" [7] [1] [9] "unexpected EOF" (by decide)
  exact ⟨(h1.1 rfl).1, (h1.1 rfl).2.1, (h2.2 rfl).1, (h2.2 rfl).2⟩

/-- C10: the exported `Unxz` writes directly at `path` — `os.Create`
truncates before the copy begins — so a mid-stream decompression failure
returns the error while a created, possibly partial, output file exists at
`path`; the tmp-then-rename atomicity lives only in the `unxz` wrapper. -/
theorem Unxz_midstream_leaves_output (fs : FS) (xz : List Nat → XzRead)
    (archive path : String) (content written : List Nat) (e : String)
    (harch : fsLookup fs archive = some content)
    (hxz : xz content = XzRead.midErr written e) :
    (Unxz fs xz archive path).1 = Except.error e ∧
    fsLookup (Unxz fs xz archive path).2 path = some written := by
  have hu : Unxz fs xz archive path = (Except.error e, fsSet fs path written) := by
    simp [Unxz, harch, hxz]
  rw [hu]
  exact ⟨rfl, by simp [fsSet, fsLookup]⟩

/-- C10 witness: a mid-stream failure leaves the partial bytes at the
output path. -/
theorem Unxz_midstream_leaves_output_witness :
    (Unxz [("a.xz", [7])] (fun _ => XzRead.midErr [1, 2] "unexpected EOF")
      "a.xz" "a").1 = Except.error "unexpected EOF" ∧
    fsLookup (Unxz [("a.xz", [7])] (fun _ => XzRead.midErr [1, 2] "unexpected EOF")
      "a.xz" "a").2 "a" = some [1, 2] :=
  Unxz_midstream_leaves_output [("a.xz", [7])]
    (fun _ => XzRead.midErr [1, 2] "unexpected EOF") "a.xz" "a" [7] [1, 2]
    "unexpected EOF" (by decide) rfl

/-- Go strings.Split never yields an empty slice. -/
theorem splitGo_ne_nil (sep : Char) (l : List Char) : splitGo sep l ≠ [] := by
  induction l with
  | nil => simp [splitGo]
  | cons c rest ih =>
    simp only [splitGo]
    split
    · simp
    · split <;> simp

/-- C7: evidence of the divergence — the local-DNS hook can never fail with
EmptyDnsResponse on a successful resolver response, because strings.Split
always yields at least one field; in particular the empty response produces
the one-element list holding `net.ParseIP("")` (Go's nil IP) with no error,
instead of the EmptyDnsResponse failure the spec requires. -/
theorem localLookup_empty_response_not_error (parse : List Char → Option (List Nat)) :
    (∀ s, localLookupFunc parse (Except.ok s) ≠ Except.error DnsErr.emptyResponse) ∧
    localLookupFunc parse (Except.ok []) = Except.ok [parse []] := by
  constructor
  · intro s h
    have hne := splitGo_ne_nil ',' s
    unfold localLookupFunc at h
    simp only [List.length_map] at h
    split at h
    · next hlen =>
      simp only [Nat.beq_eq_true_eq] at hlen
      exact hne (List.length_eq_zero.mp hlen)
    · simp at h
  · rfl

end LibSagerNet
